import Mathlib

/-!
Verification of the Melody AI backend relay service (`app.py`).

The development shallowly embeds the FastAPI handlers as pure Lean
functions.  JSON values are modelled by an inductive `Json` (objects are
encoded as cons-chains of key/value pairs, mirroring insertion order of a
Python `dict`); the process-wide `music_store` dict is modelled as an
association list with Python-dict update semantics (replace in place when
the key is present, append otherwise).  Outbound HTTP calls are modelled
by oracle functions supplied as parameters: `generate_music` receives a
function from the attempt index to that attempt's outcome, and the health
check receives the outcome of its single upstream call.  Side effects that
the claims mention (number of outbound attempts, sleep durations, the
resulting store) are returned explicitly in a trace structure.
-/

namespace MelodyAI

/-- JSON fragment read and produced by the handlers.  Objects are encoded
as cons-chains (`objCons key value rest`), matching a Python dict's
insertion order; arrays do not occur in any handler. -/
inductive Json where
  | null
  | bool (b : Bool)
  | num (n : Int)
  | str (s : String)
  | objNil
  | objCons (key : String) (value : Json) (rest : Json)
deriving DecidableEq

/-- Python `dict.get(key)`: the value at `key`, or `none` when absent (or
when the receiver is not an object). -/
def Json.get : Json → String → Option Json
  | .objCons k v rest, key => if k = key then some v else rest.get key
  | _, _ => none

/-- Python truthiness of a JSON value: `None`, `False`, `0`, `""` and `{}`
are falsy, everything else truthy. -/
def Json.truthy : Json → Bool
  | .null => false
  | .bool b => b
  | .num n => n != 0
  | .str s => s != ""
  | .objNil => false
  | .objCons _ _ _ => true

/-- Truthiness of a `dict.get` result (`None` for an absent key is falsy). -/
def truthyOpt : Option Json → Bool
  | none => false
  | some j => j.truthy

/-- The process-wide `music_store` dict, keyed and valued by JSON values. -/
abbrev Store := List (Json × Json)

/-- Python `music_store.get(task_id)`. -/
def Store.get : Store → Json → Option Json
  | [], _ => none
  | (k, v) :: rest, key => if k = key then some v else Store.get rest key

/-- Python `music_store[task_id] = music_url`: replace in place when the
key is present, append at the end otherwise. -/
def Store.set : Store → Json → Json → Store
  | [], k, v => [(k, v)]
  | (k1, v1) :: rest, k, v =>
    if k1 = k then (k, v) :: rest else (k1, v1) :: Store.set rest k v

/-- Number of entries of the store carrying a given key. -/
def Store.countKey : Store → Json → Nat
  | [], _ => 0
  | (k1, _) :: rest, k => (if k1 = k then 1 else 0) + Store.countKey rest k

/-- An HTTP response as seen by the client: status code and JSON object
body, the body listed as key/value pairs in emission order. -/
structure HttpResponse where
  status : Nat
  body : List (String × Json)
deriving DecidableEq

/-- `POST /callback` (`receive_music`): reads `audio_url` and `id` from
the payload; when both are truthy, stores the URL under the task id and
acknowledges, otherwise reports the missing data without touching the
store.  Returns the response together with the resulting store. -/
def receive_music (data : Json) (store : Store) : HttpResponse × Store :=
  match data.get "id", data.get "audio_url" with
  | some task_id, some music_url =>
    if task_id.truthy && music_url.truthy then
      (⟨200, [("status", .str "stored"), ("taskId", task_id)]⟩,
        store.set task_id music_url)
    else
      (⟨200, [("status", .str "error"),
        ("message", .str "Missing taskId or music_url")]⟩, store)
  | _, _ =>
    (⟨200, [("status", .str "error"),
      ("message", .str "Missing taskId or music_url")]⟩, store)

/-- `GET /music/{task_id}` (`get_music`): looks the path parameter up in
the store; a truthy stored URL is returned, otherwise the handler raises
a 404 `HTTPException`.  The store is read, never written. -/
def get_music (task_id : String) (store : Store) : HttpResponse × Store :=
  (match Store.get store (.str task_id) with
    | some music_url =>
      if music_url.truthy then
        ⟨200, [("taskId", .str task_id), ("music_url", music_url)]⟩
      else
        ⟨404, [("detail", .str "Music not found for this task ID.")]⟩
    | none => ⟨404, [("detail", .str "Music not found for this task ID.")]⟩,
    store)

/-- Outcome of the single upstream GET issued by the health check:
either the transport raises, or a response with some status code comes
back. -/
inductive HealthUpstream where
  | exn
  | resp (statusCode : Nat)
deriving DecidableEq

/-- `GET /health` (`health_check`): classifies the upstream call as
online (status 200), offline (any other status), or unreachable (the bare
`except:` catches every transport error). -/
def health_check : HealthUpstream → HttpResponse
  | .exn => ⟨200, [("suno_status", .str "unreachable")]⟩
  | .resp c =>
    ⟨200, [("suno_status", .str (if c = 200 then "online" else "offline"))]⟩

/-- Python `str.strip()`: drop leading and trailing whitespace. -/
def pyStrip (s : String) : String :=
  ⟨((s.data.dropWhile Char.isWhitespace).reverse.dropWhile
    Char.isWhitespace).reverse⟩

/-- Does `pat` occur as a contiguous sublist? -/
def listContains (pat : List Char) : List Char → Bool
  | [] => pat.isEmpty
  | c :: rest => pat.isPrefixOf (c :: rest) || listContains pat rest

/-- Naive substring test, modelling Python's `"text/html" in content_type`. -/
def containsSubstr (s pat : String) : Bool :=
  listContains pat.data s.data

/-- Outcome of one outbound `POST` in the submission loop: the transport
raised, or a response arrived with a status code, a content type and a
body (`none` models a body `response.json()` cannot decode). -/
inductive AttemptResult where
  | exn
  | resp (statusCode : Nat) (contentType : String) (body : Option Json)

/-- An attempt the loop treats as failed: a raised exception, an HTML
content type, a non-200 status, or an undecodable body. -/
def attemptFails : AttemptResult → Bool
  | .exn => true
  | .resp status ct body =>
    containsSubstr ct "text/html" || status != 200 || body.isNone

/-- Observable outcome of one `POST /generate_music` request: the
response, how many outbound attempts were made, the durations (in
seconds) of the sleeps performed, and the resulting store. -/
structure GenTrace where
  response : HttpResponse
  attempts : Nat
  sleeps : List Nat
  store : Store
deriving DecidableEq

/-- Hardcoded placeholder audio link of the fallback response. -/
def soundHelixUrl : String :=
  "https://www.soundhelix.com/examples/mp3/SoundHelix-Song-1.mp3"

/-- Fallback response returned once the retry budget is exhausted. -/
def fallbackResponse : HttpResponse :=
  ⟨200, [("music_url", .str soundHelixUrl),
    ("message", .str "🎵 Suno is unreachable. Here's a sample melody instead!")]⟩

/-- Response returned when a decoded upstream body carries no truthy
`audio_url`. -/
def noUrlResponse : HttpResponse :=
  ⟨200, [("music_url", .null),
    ("error", .str "No audio URL returned. Try a different prompt or check API status.")]⟩

/-- What one iteration of the retry loop decides: sleep 2 seconds and
`continue`, or `return` a response. -/
inductive StepOutcome where
  | retry
  | done (resp : HttpResponse)
deriving DecidableEq

/-- Body of one iteration of the retry loop, in source order: a raised
exception, an HTML content type or a non-200 status, or an undecodable
body each sleep and continue; otherwise the flat `audio_url` field is
read, a truthy value is returned as `{music_url: value}`, and a missing
or falsy value yields the no-URL error body. -/
def attemptStep : AttemptResult → StepOutcome
  | .exn => .retry
  | .resp status ct body =>
    if containsSubstr ct "text/html" || status != 200 then .retry
    else
      match body with
      | none => .retry
      | some data =>
        match data.get "audio_url" with
        | some music_url =>
          if music_url.truthy then .done ⟨200, [("music_url", music_url)]⟩
          else .done noUrlResponse
        | none => .done noUrlResponse

/-- The `for attempt in range(retries)` loop of `generate_music`.  `fuel`
is the number of iterations left, `attempts` the number of outbound calls
already made (also the next attempt index for the oracle `upstream`), and
`sleeps` the sleep durations performed so far.  Every failed attempt
sleeps 2 seconds and continues; exhaustion yields the fallback. -/
def attemptLoop (upstream : Nat → AttemptResult) (store : Store) :
    Nat → Nat → List Nat → GenTrace
  | 0, attempts, sleeps => ⟨fallbackResponse, attempts, sleeps, store⟩
  | fuel + 1, attempts, sleeps =>
    match attemptStep (upstream attempts) with
    | .retry => attemptLoop upstream store fuel (attempts + 1) (sleeps ++ [2])
    | .done resp => ⟨resp, attempts + 1, sleeps, store⟩

/-- `POST /generate_music` (`generate_music`): rejects an empty or
whitespace-only prompt with a 400 `HTTPException` before any outbound
call, then runs the retry loop with `retries = 3`.  The handler never
touches `music_store`; the store is threaded through unchanged. -/
def generate_music (prompt : String) (upstream : Nat → AttemptResult)
    (store : Store) : GenTrace :=
  if pyStrip prompt = "" then
    ⟨⟨400, [("detail", .str "Prompt cannot be empty.")]⟩, 0, [], store⟩
  else
    attemptLoop upstream store 3 0 []

/-- An attempt fails exactly when the loop body decides to retry. -/
theorem attemptFails_iff (r : AttemptResult) :
    attemptFails r = true ↔ attemptStep r = .retry := by
  cases r with
  | exn => simp [attemptFails, attemptStep]
  | resp status ct body =>
    by_cases h : (containsSubstr ct "text/html" || status != 200) = true
    · simp [attemptFails, attemptStep, h]
    · cases body with
      | none => simp_all [attemptFails, attemptStep]
      | some data =>
        cases hg : data.get "audio_url" with
        | none => simp_all [attemptFails, attemptStep]
        | some u =>
          by_cases ht : u.truthy = true <;>
            simp_all [attemptFails, attemptStep]

/-- The retry loop never writes the store. -/
theorem attemptLoop_store (upstream : Nat → AttemptResult) (store : Store) :
    ∀ fuel attempts sleeps,
      (attemptLoop upstream store fuel attempts sleeps).store = store := by
  intro fuel
  induction fuel with
  | zero => intro a sl; rfl
  | succ n ih =>
    intro a sl
    cases h : attemptStep (upstream a) with
    | retry => simp only [attemptLoop, h]; exact ih (a + 1) (sl ++ [2])
    | done resp => simp only [attemptLoop, h]

/-- The retry loop makes at most `fuel` further attempts. -/
theorem attemptLoop_attempts_le (upstream : Nat → AttemptResult)
    (store : Store) : ∀ fuel attempts sleeps,
      (attemptLoop upstream store fuel attempts sleeps).attempts ≤
        attempts + fuel := by
  intro fuel
  induction fuel with
  | zero => intro a sl; simp [attemptLoop]
  | succ n ih =>
    intro a sl
    cases h : attemptStep (upstream a) with
    | retry =>
      simp only [attemptLoop, h]
      have := ih (a + 1) (sl ++ [2])
      omega
    | done resp => simp only [attemptLoop, h]; omega

/-- When every remaining attempt retries, the loop exhausts its fuel,
sleeps 2 seconds per attempt and ends in the fallback response. -/
theorem attemptLoop_all_retry (upstream : Nat → AttemptResult)
    (store : Store) : ∀ fuel attempts sleeps,
      (∀ i, attempts ≤ i → i < attempts + fuel →
        attemptStep (upstream i) = .retry) →
      attemptLoop upstream store fuel attempts sleeps =
        ⟨fallbackResponse, attempts + fuel,
          sleeps ++ List.replicate fuel 2, store⟩ := by
  intro fuel
  induction fuel with
  | zero => intro a sl _; simp [attemptLoop]
  | succ n ih =>
    intro a sl h
    have ha : attemptStep (upstream a) = .retry := h a le_rfl (by omega)
    have hnext : ∀ i, a + 1 ≤ i → i < (a + 1) + n →
        attemptStep (upstream i) = .retry :=
      fun i h1 h2 => h i (by omega) (by omega)
    simp only [attemptLoop, ha]
    rw [ih (a + 1) (sl ++ [2]) hnext]
    have harith : (a + 1) + n = a + (n + 1) := by omega
    simp [harith, List.append_assoc, List.replicate_succ]

/-- Looking up the key just written returns the value just written. -/
theorem Store.get_set (s : Store) (k v : Json) :
    Store.get (Store.set s k v) k = some v := by
  induction s with
  | nil => simp [Store.set, Store.get]
  | cons p rest ih =>
    obtain ⟨k1, v1⟩ := p
    by_cases h : k1 = k
    · simp [Store.set, Store.get, h]
    · simp [Store.set, Store.get, h, ih]

/-- Writing the same key/value twice equals writing it once. -/
theorem Store.set_set_same (s : Store) (k v : Json) :
    Store.set (Store.set s k v) k v = Store.set s k v := by
  induction s with
  | nil => simp [Store.set]
  | cons p rest ih =>
    obtain ⟨k1, v1⟩ := p
    by_cases h : k1 = k
    · simp [Store.set, h]
    · simp [Store.set, h, ih]

/-- A write to a key held by at most one entry leaves exactly one entry
for that key. -/
theorem Store.countKey_set (s : Store) (k v : Json)
    (h : Store.countKey s k ≤ 1) : Store.countKey (Store.set s k v) k = 1 := by
  induction s with
  | nil => simp [Store.set, Store.countKey]
  | cons p rest ih =>
    obtain ⟨k1, v1⟩ := p
    by_cases hk : k1 = k
    · subst hk
      simp [Store.set, Store.countKey] at h ⊢
      omega
    · simp only [Store.set, if_neg hk, Store.countKey, if_neg hk] at h ⊢
      have := ih (by omega)
      omega

/-- Claim C1: a request whose prompt is empty or whitespace-only is
rejected with HTTP 400 before any outbound call: zero attempts, zero
sleeps, and the store untouched. -/
theorem empty_prompt_rejected_before_upstream (prompt : String)
    (upstream : Nat → AttemptResult) (store : Store)
    (h : pyStrip prompt = "") :
    generate_music prompt upstream store =
      ⟨⟨400, [("detail", .str "Prompt cannot be empty.")]⟩, 0, [], store⟩ := by
  simp [generate_music, h]

/-- Witness for C1 at the whitespace-only prompt `"  \t "`. -/
theorem empty_prompt_rejected_witness :
    pyStrip "  \t " = "" ∧
    generate_music "  \t " (fun _ => .exn) [] =
      ⟨⟨400, [("detail", .str "Prompt cannot be empty.")]⟩, 0, [], []⟩ :=
  ⟨by decide,
    empty_prompt_rejected_before_upstream "  \t " (fun _ => .exn) [] (by decide)⟩

/-- Claim C3 counterexample: with nothing stored, `GET /music/abc123`
raises a 404 error whose body has no `message` key, not the claimed
not-ready payload. -/
theorem lookup_unknown_task_counterexample :
    get_music "abc123" [] =
      (⟨404, [("detail", .str "Music not found for this task ID.")]⟩, []) ∧
    (get_music "abc123" []).1.status ≠ 200 ∧
    List.lookup "message" (get_music "abc123" []).1.body = none :=
  ⟨rfl, by decide, by decide⟩

/-- Claim C3 as amended: for every task identifier with no stored
result, the lookup endpoint raises HTTP 404 with detail
"Music not found for this task ID." and leaves the store unchanged. -/
theorem lookup_unknown_task_returns_404 (task_id : String) (store : Store)
    (h : Store.get store (.str task_id) = none) :
    get_music task_id store =
      (⟨404, [("detail", .str "Music not found for this task ID.")]⟩,
        store) := by
  simp [get_music, h]

/-- Witness for the amended C3 at task identifier `"abc123"` and the
empty store. -/
theorem lookup_unknown_task_returns_404_witness :
    get_music "abc123" [] =
      (⟨404, [("detail", .str "Music not found for this task ID.")]⟩, []) :=
  lookup_unknown_task_returns_404 "abc123" [] rfl

/-- Claim C8: the health check reports online exactly on upstream status
200, offline exactly on a completed call with any other status,
unreachable exactly on a raised transport error, and always answers with
some status string (it never raises). -/
theorem health_status_classification (u : HealthUpstream) :
    (health_check u = ⟨200, [("suno_status", .str "online")]⟩ ↔
      u = .resp 200) ∧
    (health_check u = ⟨200, [("suno_status", .str "offline")]⟩ ↔
      ∃ c, c ≠ 200 ∧ u = .resp c) ∧
    (health_check u = ⟨200, [("suno_status", .str "unreachable")]⟩ ↔
      u = .exn) ∧
    ∃ s, health_check u = ⟨200, [("suno_status", .str s)]⟩ := by
  cases u with
  | exn =>
    refine ⟨by simp [health_check], ?_, by simp [health_check],
      "unreachable", rfl⟩
    constructor
    · intro h; simp [health_check] at h
    · rintro ⟨c, hc, h⟩; exact absurd h (by simp)
  | resp c =>
    by_cases h : c = 200
    · subst h
      refine ⟨by simp [health_check], ?_, by simp [health_check],
        "online", by simp [health_check]⟩
      constructor
      · intro hh; simp [health_check] at hh
      · rintro ⟨c1, hc1, hcc⟩
        injection hcc with hcc
        omega
    · refine ⟨by simp [health_check, h], ?_, by simp [health_check, h],
        "offline", by simp [health_check, h]⟩
      exact ⟨fun _ => ⟨c, h, rfl⟩, fun _ => by simp [health_check, h]⟩

/-- Claim C9: a callback payload whose `id` or `audio_url` is absent or
falsy (for instance the empty string) is acknowledged with the error
body and leaves the store completely unchanged. -/
theorem callback_missing_fields_rejected (data : Json) (store : Store)
    (h : truthyOpt (data.get "id") = false ∨
      truthyOpt (data.get "audio_url") = false) :
    receive_music data store =
      (⟨200, [("status", .str "error"),
        ("message", .str "Missing taskId or music_url")]⟩, store) := by
  cases hid : data.get "id" with
  | none => cases hurl : data.get "audio_url" <;>
      simp [receive_music, hid, hurl]
  | some t =>
    cases hurl : data.get "audio_url" with
    | none => simp [receive_music, hid, hurl]
    | some u =>
      rw [hid, hurl] at h
      simp only [truthyOpt] at h
      rcases h with h | h <;> simp [receive_music, hid, hurl, h]

/-- Witness for C9: a payload with an empty-string `id` and a present
`audio_url` is rejected and stores nothing. -/
theorem callback_missing_fields_rejected_witness :
    truthyOpt ((Json.objCons "id" (.str "")
      (.objCons "audio_url" (.str "https://x/y.mp3") .objNil)).get "id") =
        false ∧
    receive_music (.objCons "id" (.str "")
      (.objCons "audio_url" (.str "https://x/y.mp3") .objNil)) [] =
      (⟨200, [("status", .str "error"),
        ("message", .str "Missing taskId or music_url")]⟩, []) :=
  ⟨by decide,
    callback_missing_fields_rejected _ [] (Or.inl (by decide))⟩

/-- Claim C10: only the callback handler writes the store — the lookup
endpoint returns its store argument unchanged for every task identifier,
and the submission endpoint returns its store argument unchanged for
every prompt and every upstream behaviour. -/
theorem only_callback_mutates_store :
    (∀ task_id store, (get_music task_id store).2 = store) ∧
    (∀ prompt upstream store,
      (generate_music prompt upstream store).store = store) := by
  constructor
  · intro t s; rfl
  · intro p u s
    by_cases h : pyStrip p = ""
    · simp [generate_music, h]
    · simp [generate_music, h, attemptLoop_store]

/-- Claim C2: when the callback stores URL `u` under task identifier `t`
(acknowledging with `{status: "stored", taskId: t}`), a subsequent
`GET /music/t` returns exactly `{taskId: t, music_url: u}`. -/
theorem callback_store_then_lookup (data : Json) (store : Store)
    (t : String) (u : Json)
    (hid : data.get "id" = some (.str t))
    (hurl : data.get "audio_url" = some u)
    (ht : (Json.str t).truthy = true)
    (hu : u.truthy = true) :
    (receive_music data store).1 =
      ⟨200, [("status", .str "stored"), ("taskId", .str t)]⟩ ∧
    (get_music t (receive_music data store).2).1 =
      ⟨200, [("taskId", .str t), ("music_url", u)]⟩ := by
  have hrm : receive_music data store =
      (⟨200, [("status", .str "stored"), ("taskId", .str t)]⟩,
        Store.set store (.str t) u) := by
    simp [receive_music, hid, hurl, ht, hu]
  rw [hrm]
  exact ⟨rfl, by simp [get_music, Store.get_set, hu]⟩

/-- Witness for C2: the scenario payload with id `"abc123"` and URL
`"https://x/y.mp3"`, stored into the empty store and looked up. -/
theorem callback_store_then_lookup_witness :
    (receive_music (.objCons "id" (.str "abc123")
      (.objCons "audio_url" (.str "https://x/y.mp3") .objNil)) []).1 =
      ⟨200, [("status", .str "stored"), ("taskId", .str "abc123")]⟩ ∧
    (get_music "abc123" (receive_music (.objCons "id" (.str "abc123")
      (.objCons "audio_url" (.str "https://x/y.mp3") .objNil)) []).2).1 =
      ⟨200, [("taskId", .str "abc123"),
        ("music_url", .str "https://x/y.mp3")]⟩ :=
  callback_store_then_lookup _ [] "abc123" (.str "https://x/y.mp3")
    (by decide) (by decide) (by decide) (by decide)

/-- Claim C7: processing the same callback payload twice leaves the
store exactly as processing it once (same response, same store); the
stored URL is the payload's URL, and a store holding at most one entry
for the task identifier holds exactly one entry afterwards. -/
theorem callback_write_idempotent (data : Json) (store : Store)
    (t u : Json)
    (hid : data.get "id" = some t)
    (hurl : data.get "audio_url" = some u)
    (ht : t.truthy = true) (hu : u.truthy = true)
    (hcount : Store.countKey store t ≤ 1) :
    receive_music data (receive_music data store).2 =
      receive_music data store ∧
    Store.get (receive_music data store).2 t = some u ∧
    Store.countKey (receive_music data store).2 t = 1 := by
  have hrm : receive_music data store =
      (⟨200, [("status", .str "stored"), ("taskId", t)]⟩,
        Store.set store t u) := by
    simp [receive_music, hid, hurl, ht, hu]
  rw [hrm]
  refine ⟨?_, Store.get_set store t u, Store.countKey_set store t u hcount⟩
  simp [receive_music, hid, hurl, ht, hu, Store.set_set_same]

/-- Witness for C7: the scenario payload processed twice from the empty
store. -/
theorem callback_write_idempotent_witness :
    receive_music (.objCons "id" (.str "abc123")
      (.objCons "audio_url" (.str "https://x/y.mp3") .objNil))
      (receive_music (.objCons "id" (.str "abc123")
        (.objCons "audio_url" (.str "https://x/y.mp3") .objNil)) []).2 =
      receive_music (.objCons "id" (.str "abc123")
        (.objCons "audio_url" (.str "https://x/y.mp3") .objNil)) [] ∧
    Store.get (receive_music (.objCons "id" (.str "abc123")
      (.objCons "audio_url" (.str "https://x/y.mp3") .objNil)) []).2
      (.str "abc123") = some (.str "https://x/y.mp3") ∧
    Store.countKey (receive_music (.objCons "id" (.str "abc123")
      (.objCons "audio_url" (.str "https://x/y.mp3") .objNil)) []).2
      (.str "abc123") = 1 :=
  callback_write_idempotent _ [] (.str "abc123") (.str "https://x/y.mp3")
    (by decide) (by decide) (by decide) (by decide) (by decide)

/-- Claim C6: when every outbound attempt fails (non-200 status, HTML
content type, undecodable body, or a raised exception), exactly 3
attempts are made, each followed by a 2-second sleep, and the SoundHelix
fallback with its message is returned; moreover no run ever makes more
than 3 attempts. -/
theorem retry_exhaustion_three_attempts (prompt : String)
    (upstream : Nat → AttemptResult) (store : Store)
    (hp : pyStrip prompt ≠ "")
    (hf : ∀ i, i < 3 → attemptFails (upstream i) = true) :
    generate_music prompt upstream store =
      ⟨fallbackResponse, 3, [2, 2, 2], store⟩ ∧
    ∀ p u s, (generate_music p u s).attempts ≤ 3 := by
  constructor
  · have h3 : ∀ i, 0 ≤ i → i < 0 + 3 → attemptStep (upstream i) = .retry :=
      fun i _ h2 => (attemptFails_iff _).1 (hf i (by omega))
    have hall := attemptLoop_all_retry upstream store 3 0 [] h3
    unfold generate_music
    rw [if_neg hp, hall]
    rfl
  · intro p u s
    by_cases h : pyStrip p = ""
    · simp [generate_music, h]
    · unfold generate_music
      rw [if_neg h]
      exact attemptLoop_attempts_le u s 3 0 []

/-- Witness for C6: every attempt raises a transport exception. -/
theorem retry_exhaustion_witness :
    generate_music "upbeat jazz" (fun _ => .exn) [] =
      ⟨fallbackResponse, 3, [2, 2, 2], []⟩ :=
  (retry_exhaustion_three_attempts "upbeat jazz" (fun _ => .exn) []
    (by decide) (fun i _ => rfl)).1

/-- Claim C4 counterexample: an upstream reply with HTTP status 200
whose body signals quota exhaustion as `{code: 429}` makes the endpoint
return the no-URL error body on the first attempt — not the SoundHelix
fallback with its message. -/
theorem quota_body_429_counterexample :
    generate_music "upbeat jazz"
      (fun _ => .resp 200 "application/json"
        (some (.objCons "code" (.num 429) .objNil))) [] =
      ⟨noUrlResponse, 1, [], []⟩ ∧
    noUrlResponse ≠ fallbackResponse ∧
    List.lookup "music_url" noUrlResponse.body = some .null ∧
    List.lookup "error" noUrlResponse.body = some (.str
      "No audio URL returned. Try a different prompt or check API status.") :=
  ⟨rfl, by decide, by decide, by decide⟩

/-- Claim C4 as amended: when the upstream answers every attempt with
HTTP status code 429, the endpoint exhausts its retries and returns HTTP
200 with the SoundHelix fallback URL and its explanatory message, never
an error; but quota exhaustion signalled only in a decoded 200 body is
answered with the no-URL error body instead. -/
theorem upstream_429_status_yields_fallback (prompt : String)
    (upstream : Nat → AttemptResult) (store : Store)
    (hp : pyStrip prompt ≠ "")
    (h429 : ∀ i, i < 3 → ∃ ct body, upstream i = .resp 429 ct body) :
    generate_music prompt upstream store =
      ⟨fallbackResponse, 3, [2, 2, 2], store⟩ ∧
    (generate_music prompt upstream store).response.status = 200 := by
  have h3 : ∀ i, 0 ≤ i → i < 0 + 3 → attemptStep (upstream i) = .retry := by
    intro i _ h2
    obtain ⟨ct, body, hb⟩ := h429 i (by omega)
    apply (attemptFails_iff _).1
    rw [hb]
    simp [attemptFails]
  have hall := attemptLoop_all_retry upstream store 3 0 [] h3
  have hmain : generate_music prompt upstream store =
      ⟨fallbackResponse, 3, [2, 2, 2], store⟩ := by
    unfold generate_music
    rw [if_neg hp, hall]
    rfl
  refine ⟨hmain, ?_⟩
  rw [hmain]
  rfl

/-- Witness for the amended C4: the upstream answers 429 on every
attempt. -/
theorem upstream_429_status_witness :
    generate_music "upbeat jazz"
      (fun _ => .resp 429 "application/json" none) [] =
      ⟨fallbackResponse, 3, [2, 2, 2], []⟩ :=
  (upstream_429_status_yields_fallback "upbeat jazz"
    (fun _ => .resp 429 "application/json" none) [] (by decide)
    (fun i _ => ⟨"application/json", none, rfl⟩)).1

/-- Claim C5 counterexample: a fully successful submission whose decoded
body carries both a nested `data.id` and a flat truthy `audio_url`
returns only `{music_url: ...}` — no task identifier key at all; and a
200 body carrying the nested identifier but no `audio_url` yields the
HTTP 200 no-URL error body, so the absent identifier is not a fatal
error. -/
theorem success_no_task_id_counterexample :
    generate_music "upbeat jazz"
      (fun _ => .resp 200 "application/json"
        (some (.objCons "data" (.objCons "id" (.str "abc123") .objNil)
          (.objCons "audio_url" (.str "https://x/y.mp3") .objNil)))) [] =
      ⟨⟨200, [("music_url", .str "https://x/y.mp3")]⟩, 1, [], []⟩ ∧
    List.lookup "taskId" [("music_url", Json.str "https://x/y.mp3")] =
      none ∧
    generate_music "upbeat jazz"
      (fun _ => .resp 200 "application/json"
        (some (.objCons "data" (.objCons "id" (.str "abc123") .objNil)
          .objNil))) [] =
      ⟨noUrlResponse, 1, [], []⟩ :=
  ⟨rfl, by decide, rfl⟩

/-- Claim C5 as amended: the submission endpoint never returns a task
identifier; on a successful first attempt (status 200, non-HTML content
type, decodable body) a truthy flat `audio_url` field is returned
verbatim as `music_url`, and an absent or falsy `audio_url` yields the
HTTP 200 no-URL error body for that request rather than a fatal
error. -/
theorem success_returns_flat_audio_url (prompt ct : String) (data : Json)
    (upstream : Nat → AttemptResult) (store : Store)
    (hp : pyStrip prompt ≠ "")
    (h0 : upstream 0 = .resp 200 ct (some data))
    (hct : containsSubstr ct "text/html" = false) :
    (∀ music_url, data.get "audio_url" = some music_url →
      music_url.truthy = true →
      generate_music prompt upstream store =
        ⟨⟨200, [("music_url", music_url)]⟩, 1, [], store⟩) ∧
    (truthyOpt (data.get "audio_url") = false →
      generate_music prompt upstream store =
        ⟨noUrlResponse, 1, [], store⟩) := by
  have hunfold : generate_music prompt upstream store =
      attemptLoop upstream store 3 0 [] := by
    unfold generate_music
    rw [if_neg hp]
  constructor
  · intro mu hmu htr
    rw [hunfold]
    have hstep : attemptStep (upstream 0) =
        .done ⟨200, [("music_url", mu)]⟩ := by
      rw [h0]
      simp [attemptStep, hct, hmu, htr]
    simp [attemptLoop, hstep]
  · intro hfalse
    rw [hunfold]
    have hstep : attemptStep (upstream 0) = .done noUrlResponse := by
      rw [h0]
      cases hg : data.get "audio_url" with
      | none => simp [attemptStep, hct, hg]
      | some mu =>
        rw [hg] at hfalse
        simp only [truthyOpt] at hfalse
        simp [attemptStep, hct, hg, hfalse]
    simp [attemptLoop, hstep]

/-- Witness for the amended C5: a 200 JSON body whose flat `audio_url`
is `"https://x/y.mp3"` is returned verbatim on the first attempt. -/
theorem success_returns_flat_audio_url_witness :
    generate_music "upbeat jazz"
      (fun _ => .resp 200 "application/json"
        (some (.objCons "audio_url" (.str "https://x/y.mp3") .objNil))) [] =
      ⟨⟨200, [("music_url", .str "https://x/y.mp3")]⟩, 1, [], []⟩ :=
  (success_returns_flat_audio_url "upbeat jazz" "application/json"
    (.objCons "audio_url" (.str "https://x/y.mp3") .objNil)
    (fun _ => .resp 200 "application/json"
      (some (.objCons "audio_url" (.str "https://x/y.mp3") .objNil))) []
    (by decide) rfl (by decide)).1
    (.str "https://x/y.mp3") (by decide) (by decide)

end MelodyAI
